import Mathlib

/-!
Shallow embedding of `src/schemas.py`: five Pydantic model declarations
(User, Product, Author, Book, Submission) that describe MongoDB collection
schemas. The repository contains only the declarations; validation and the
collection-name derivation are performed by an external viewer/CRUD engine,
so those operations are modelled from the specification and marked as such.
-/

namespace Schemas

/-- A JSON-like value supplied in a candidate record or used as a default.
Numbers are modelled exactly as rationals (all declared bounds are integers,
so no rounding enters the constraint checks). -/
inductive Value where
  | null : Value
  | str : String → Value
  | num : Rat → Value
  | bool : Bool → Value
  | list : List Value → Value

/-- The semantic types appearing in the schema file: `str`, `EmailStr`,
`HttpUrl`, `int`, `float`, `bool`, `List[str]`. -/
inductive FieldType where
  | strT | emailT | urlT | intT | floatT | boolT | listStrT
deriving DecidableEq

/-- One field declaration, transcribed from a `Field(...)` line in
`src/schemas.py`: name, semantic type, whether the field is required
(Pydantic `...` sentinel), its declared default (for optional fields),
whether the annotation is `Optional[...]` (so `None` conforms), and the
declared `ge` / `le` / `min_length` constraints. -/
structure FieldSpec where
  name : String
  ftype : FieldType
  required : Bool
  default : Option Value
  nullable : Bool
  ge : Option Int := none
  le : Option Int := none
  minLength : Option Nat := none
  description : String := ""

/-- A model declaration: a name and an ordered list of field declarations. -/
structure ModelSchema where
  name : String
  fields : List FieldSpec

/-- A candidate record: an ordered association list of field name to value. -/
abbrev Record := List (String × Value)

/-- First value bound to a key in a record, if any. -/
def lookupField : Record → String → Option Value
  | [], _ => none
  | (k, v) :: rest, key => if k = key then some v else lookupField rest key

/-- Split a character list at its first `@`, failing when `@` is absent or
occurs more than once. -/
def emailSplit : List Char → Option (List Char × List Char)
  | [] => none
  | c :: rest =>
    if c = '@' then
      if rest.contains '@' then none else some ([], rest)
    else
      (emailSplit rest).map (fun p => (c :: p.1, p.2))

/-- Modelled from the spec: the email-format check performed by the external
engine for `EmailStr` fields (the format validator itself is not in this
repository). A value passes when it has a nonempty local part, a single `@`,
and a domain containing an interior dot. -/
def isValidEmail (s : String) : Bool :=
  match emailSplit s.data with
  | some (local_, domain) =>
    !local_.isEmpty && domain.contains '.' &&
      domain.head? ≠ some '.' && domain.getLast? ≠ some '.'
  | none => false

/-- Modelled from the spec: the URL-format check performed by the external
engine for `HttpUrl` fields (the format validator itself is not in this
repository). -/
def isValidUrl (s : String) : Bool :=
  List.isPrefixOf "http://".data s.data || List.isPrefixOf "https://".data s.data

/-- Numeric bound check for a field: the declared `ge` and `le` bounds, both
inclusive, applied to a rational value. The comparisons are performed by
cross-multiplication with the (positive) denominator. -/
def boundsOK (f : FieldSpec) (q : Rat) : Bool :=
  (match f.ge with | some b => decide (b * (q.den : Int) ≤ q.num) | none => true) &&
  (match f.le with | some b => decide (q.num ≤ b * (q.den : Int)) | none => true)

/-- Modelled from the spec: the per-value conformance check the external
validator applies to one declared field — `None` conforms exactly to
`Optional[...]` fields, and otherwise the value must match the semantic type
and satisfy every declared bound/format/length constraint. -/
def checkValue (f : FieldSpec) (v : Value) : Bool :=
  match v with
  | .null => f.nullable
  | .str s =>
    match f.ftype with
    | .strT => (match f.minLength with | some m => decide (m ≤ s.length) | none => true)
    | .emailT => isValidEmail s
    | .urlT => isValidUrl s
    | _ => false
  | .num q =>
    match f.ftype with
    | .intT => decide (q.den = 1) && boundsOK f q
    | .floatT => boundsOK f q
    | _ => false
  | .bool _ => f.ftype = .boolT
  | .list xs =>
    f.ftype = .listStrT && xs.all (fun x => match x with | .str _ => true | _ => false)

/-- Modelled from the spec: the external validator's walk over the declared
fields of a model. For each declared field in order: if the candidate
supplies a value it must conform; if it is absent, a required field is a
violation and an optional field is substituted by its declared default.
Fields of the candidate not declared in the schema are never inspected.
Returns the validated record, or `none` on the first violation. -/
def validateFields : List FieldSpec → Record → Option Record
  | [], _ => some []
  | f :: fs, rec =>
    match lookupField rec f.name with
    | some v =>
      if checkValue f v then (validateFields fs rec).map (fun out => (f.name, v) :: out)
      else none
    | none =>
      if f.required then none
      else
        match f.default with
        | some d => (validateFields fs rec).map (fun out => (f.name, d) :: out)
        | none => none

/-- Modelled from the spec: `validate(model, candidate_record)`. -/
def validate (m : ModelSchema) (rec : Record) : Option Record :=
  validateFields m.fields rec

/-- The declaration of the field named `k` in model `m`, if any. -/
def fieldOf (m : ModelSchema) (k : String) : Option FieldSpec :=
  m.fields.find? (fun f => f.name == k)

/-- Transcription of `class User(BaseModel)` from `src/schemas.py`, lines 19–28. -/
def User : ModelSchema :=
  { name := "User"
    fields :=
      [ { name := "name", ftype := .strT, required := true, default := none,
          nullable := false, description := "Full name" }
      , { name := "email", ftype := .emailT, required := true, default := none,
          nullable := false, description := "Email address" }
      , { name := "address", ftype := .strT, required := false, default := some .null,
          nullable := true, description := "Address" }
      , { name := "age", ftype := .intT, required := false, default := some .null,
          nullable := true, ge := some 0, le := some 120, description := "Age in years" }
      , { name := "is_active", ftype := .boolT, required := false, default := some (.bool true),
          nullable := false, description := "Whether user is active" } ] }

/-- Transcription of `class Product(BaseModel)` from `src/schemas.py`, lines 30–39. -/
def Product : ModelSchema :=
  { name := "Product"
    fields :=
      [ { name := "title", ftype := .strT, required := true, default := none,
          nullable := false, description := "Product title" }
      , { name := "description", ftype := .strT, required := false, default := some .null,
          nullable := true, description := "Product description" }
      , { name := "price", ftype := .floatT, required := true, default := none,
          nullable := false, ge := some 0, description := "Price in dollars" }
      , { name := "category", ftype := .strT, required := true, default := none,
          nullable := false, description := "Product category" }
      , { name := "in_stock", ftype := .boolT, required := false, default := some (.bool true),
          nullable := false, description := "Whether product is in stock" } ] }

/-- Transcription of `class Author(BaseModel)` from `src/schemas.py`, lines 43–48. -/
def Author : ModelSchema :=
  { name := "Author"
    fields :=
      [ { name := "name", ftype := .strT, required := true, default := none,
          nullable := false, description := "Author name" }
      , { name := "bio", ftype := .strT, required := false, default := some .null,
          nullable := true, description := "Short biography" }
      , { name := "website", ftype := .urlT, required := false, default := some .null,
          nullable := true, description := "Personal website" }
      , { name := "avatar_url", ftype := .urlT, required := false, default := some .null,
          nullable := true, description := "Avatar or portrait image" } ] }

/-- Transcription of `class Book(BaseModel)` from `src/schemas.py`, lines 50–61. -/
def Book : ModelSchema :=
  { name := "Book"
    fields :=
      [ { name := "title", ftype := .strT, required := true, default := none,
          nullable := false, description := "Book title" }
      , { name := "subtitle", ftype := .strT, required := false, default := some .null,
          nullable := true, description := "Subtitle" }
      , { name := "description", ftype := .strT, required := false, default := some .null,
          nullable := true, description := "Short description" }
      , { name := "author", ftype := .strT, required := true, default := none,
          nullable := false, description := "Primary author name" }
      , { name := "genres", ftype := .listStrT, required := false, default := some (.list []),
          nullable := false, description := "List of genres/tags" }
      , { name := "cover_url", ftype := .urlT, required := false, default := some .null,
          nullable := true, description := "Cover image URL" }
      , { name := "pages", ftype := .intT, required := false, default := some .null,
          nullable := true, ge := some 1, description := "Number of pages" }
      , { name := "price", ftype := .floatT, required := false, default := some .null,
          nullable := true, ge := some 0, description := "Price in USD" }
      , { name := "isbn", ftype := .strT, required := false, default := some .null,
          nullable := true, description := "ISBN number" }
      , { name := "featured", ftype := .boolT, required := false, default := some (.bool false),
          nullable := false, description := "Whether the book is featured" } ] }

/-- Transcription of `class Submission(BaseModel)` from `src/schemas.py`, lines 63–71. -/
def Submission : ModelSchema :=
  { name := "Submission"
    fields :=
      [ { name := "author_name", ftype := .strT, required := true, default := none,
          nullable := false, description := "Your full name" }
      , { name := "email", ftype := .emailT, required := true, default := none,
          nullable := false, description := "Contact email" }
      , { name := "book_title", ftype := .strT, required := true, default := none,
          nullable := false, description := "Working title of the book" }
      , { name := "synopsis", ftype := .strT, required := true, default := none,
          nullable := false, minLength := some 50, description := "Brief synopsis of the manuscript" }
      , { name := "genre", ftype := .strT, required := false, default := some .null,
          nullable := true, description := "Primary genre" }
      , { name := "word_count", ftype := .intT, required := false, default := some .null,
          nullable := true, ge := some 1000, description := "Estimated word count" }
      , { name := "manuscript_url", ftype := .urlT, required := false, default := some .null,
          nullable := true, description := "Link to sample chapters or manuscript" } ] }

/-- The registry: the five model declarations of `src/schemas.py`, in source
order. -/
def registry : List ModelSchema := [User, Product, Author, Book, Submission]

/-- Modelled from the spec: `enumerate()` — the introspection call of the
external tool that produces the full ordered set of model definitions. The
repository itself contains only the static declarations. -/
def enumerate (_ : Unit) : List ModelSchema := registry

/-- Modelled from the spec: `collection_name(model)`, the external tool's
derivation of a collection name by lowercasing the model identifier. The
module docstring of `src/schemas.py` also mentions a `BlogPost → "blogs"`
exception, but no such model is declared. -/
def collection_name (m : ModelSchema) : String :=
  String.mk (m.name.data.map Char.toLower)

end Schemas

namespace Schemas

/-- A synopsis string of exactly 50 characters. -/
def synopsis50 : String := String.mk (List.replicate 50 'a')

/-- A synopsis string of exactly 49 characters. -/
def synopsis49 : String := String.mk (List.replicate 49 'a')

/-- A Submission candidate supplying exactly the four required fields, with a
50-character synopsis. -/
def subRecord : Record :=
  [("author_name", .str "Jane Doe"), ("email", .str "jane@example.com"),
   ("book_title", .str "My Book"), ("synopsis", .str synopsis50)]

theorem lookupField_append (r1 r2 : Record) (k : String) :
    lookupField (r1 ++ r2) k =
      match lookupField r1 k with
      | some v => some v
      | none => lookupField r2 k := by
  induction r1 with
  | nil => simp [lookupField]
  | cons p r1 ih =>
    obtain ⟨k0, v0⟩ := p
    by_cases h : k0 = k
    · simp [lookupField, h]
    · simp [lookupField, h, ih]

theorem lookupField_eq_none (r : Record) (k : String) (h : ∀ p ∈ r, p.1 ≠ k) :
    lookupField r k = none := by
  induction r with
  | nil => rfl
  | cons p r ih =>
    obtain ⟨k0, v0⟩ := p
    have hk : k0 ≠ k := h (k0, v0) (List.mem_cons_self _ _)
    simp only [lookupField, if_neg hk]
    exact ih (fun q hq => h q (List.mem_cons_of_mem _ hq))

theorem validateFields_congr (fs : List FieldSpec) (r1 r2 : Record)
    (h : ∀ f ∈ fs, lookupField r1 f.name = lookupField r2 f.name) :
    validateFields fs r1 = validateFields fs r2 := by
  induction fs with
  | nil => rfl
  | cons g gs ih =>
    have hg := h g (List.mem_cons_self g gs)
    have ih' := ih (fun f hf => h f (List.mem_cons_of_mem g hf))
    simp only [validateFields, hg, ih']

theorem validateFields_none_of_missing (fs : List FieldSpec) (rec : Record)
    (f : FieldSpec) (hf : f ∈ fs) (hreq : f.required = true)
    (hmiss : lookupField rec f.name = none) :
    validateFields fs rec = none := by
  induction fs with
  | nil => cases hf
  | cons g gs ih =>
    rcases List.mem_cons.mp hf with rfl | hmem
    · simp [validateFields, hmiss, hreq]
    · have htail := ih hmem
      simp only [validateFields]
      cases hg : lookupField rec g.name with
      | some v =>
        by_cases hcv : checkValue g v = true
        · simp [hcv, htail]
        · simp [hcv]
      | none =>
        by_cases hr : g.required = true
        · simp [hr]
        · cases hd : g.default with
          | some d => simp [hr, hd, htail]
          | none => simp [hr, hd]

theorem validateFields_none_of_invalid (fs : List FieldSpec) (rec : Record)
    (f : FieldSpec) (hf : f ∈ fs) (v : Value)
    (hv : lookupField rec f.name = some v) (hbad : checkValue f v = false) :
    validateFields fs rec = none := by
  induction fs with
  | nil => cases hf
  | cons g gs ih =>
    rcases List.mem_cons.mp hf with rfl | hmem
    · simp [validateFields, hv, hbad]
    · have htail := ih hmem
      simp only [validateFields]
      cases hg : lookupField rec g.name with
      | some w =>
        by_cases hcv : checkValue g w = true
        · simp [hcv, htail]
        · simp [hcv]
      | none =>
        by_cases hr : g.required = true
        · simp [hr]
        · cases hd : g.default with
          | some d => simp [hr, hd, htail]
          | none => simp [hr, hd]

theorem validateFields_default_of_missing (fs : List FieldSpec) (rec : Record)
    (f : FieldSpec) (hf : f ∈ fs)
    (hnodup : (fs.map FieldSpec.name).Nodup)
    (hmiss : lookupField rec f.name = none) (d : Value) (hd : f.default = some d) :
    ∀ out, validateFields fs rec = some out → lookupField out f.name = some d := by
  induction fs with
  | nil => cases hf
  | cons g gs ih =>
    intro out hout
    rcases List.mem_cons.mp hf with rfl | hmem
    · simp only [validateFields, hmiss] at hout
      by_cases hr : f.required = true
      · simp [hr] at hout
      · simp only [hr, if_neg, hd] at hout
        rcases Option.map_eq_some'.mp (by simpa using hout) with ⟨out', hout', hcons⟩
        subst hcons
        simp [lookupField]
    · have hne : g.name ≠ f.name := by
        intro h
        have h1 : f.name ∈ gs.map FieldSpec.name := List.mem_map_of_mem _ hmem
        have h2 := (List.nodup_cons.mp hnodup).1
        exact h2 (h ▸ h1)
      have hnodup' := (List.nodup_cons.mp hnodup).2
      simp only [validateFields] at hout
      cases hg : lookupField rec g.name with
      | some v =>
        simp only [hg] at hout
        by_cases hcv : checkValue g v = true
        · rw [if_pos hcv] at hout
          rcases Option.map_eq_some'.mp hout with ⟨out', hout', hcons⟩
          subst hcons
          simp [lookupField, hne]
          exact ih hmem hnodup' out' hout'
        · rw [if_neg hcv] at hout; cases hout
      | none =>
        simp only [hg] at hout
        by_cases hr : g.required = true
        · rw [if_pos hr] at hout; cases hout
        · rw [if_neg hr] at hout
          cases hgd : g.default with
          | some d0 =>
            rw [hgd] at hout
            rcases Option.map_eq_some'.mp hout with ⟨out', hout', hcons⟩
            subst hcons
            simp [lookupField, hne]
            exact ih hmem hnodup' out' hout'
          | none => rw [hgd] at hout; cases hout

end Schemas

namespace Schemas

/-- C1: validating a Submission rejects any record whose synopsis has 49
characters, accepts one with a 50-character synopsis and all required fields,
rejects word_count = 999 and accepts word_count = 1000. -/
theorem submission_synopsis_and_word_count_bounds :
    (∀ (rec : Record) (s : String), lookupField rec "synopsis" = some (.str s) →
        s.length = 49 → validate Submission rec = none) ∧
    (validate Submission subRecord).isSome = true ∧
    (∀ rec : Record, lookupField rec "word_count" = some (.num 999) →
        validate Submission rec = none) ∧
    (validate Submission (subRecord ++ [("word_count", .num 1000)])).isSome = true := by
  refine ⟨?_, rfl, ?_, rfl⟩
  · intro rec s hlook hlen
    refine validateFields_none_of_invalid Submission.fields rec
      { name := "synopsis", ftype := .strT, required := true, default := none,
        nullable := false, minLength := some 50,
        description := "Brief synopsis of the manuscript" }
      (by simp [Submission]) (.str s) hlook ?_
    show decide (50 ≤ s.length) = false
    rw [hlen]
    rfl
  · intro rec hlook
    exact validateFields_none_of_invalid Submission.fields rec
      { name := "word_count", ftype := .intT, required := false, default := some .null,
        nullable := true, ge := some 1000, description := "Estimated word count" }
      (by simp [Submission]) (.num 999) hlook rfl

/-- Witness for C1 at concrete records. -/
theorem submission_bounds_witness :
    validate Submission [("synopsis", Value.str synopsis49)] = none ∧
    validate Submission [("word_count", Value.num 999)] = none :=
  ⟨submission_synopsis_and_word_count_bounds.1 _ synopsis49 rfl (by decide),
   submission_synopsis_and_word_count_bounds.2.2.1 _ rfl⟩

/-- C2: validating a User rejects any record omitting email, rejects
age = 121, and accepts age = 0 with the other fields valid. -/
theorem user_email_required_and_age_bounds :
    (∀ rec : Record, lookupField rec "email" = none → validate User rec = none) ∧
    (∀ rec : Record, lookupField rec "age" = some (.num 121) → validate User rec = none) ∧
    (validate User [("name", .str "Alice Smith"), ("email", .str "alice@example.com"),
        ("age", .num 0)]).isSome = true := by
  refine ⟨?_, ?_, rfl⟩
  · intro rec hmiss
    exact validateFields_none_of_missing User.fields rec
      { name := "email", ftype := .emailT, required := true, default := none,
        nullable := false, description := "Email address" }
      (by simp [User]) rfl hmiss
  · intro rec hlook
    exact validateFields_none_of_invalid User.fields rec
      { name := "age", ftype := .intT, required := false, default := some .null,
        nullable := true, ge := some 0, le := some 120, description := "Age in years" }
      (by simp [User]) (.num 121) hlook rfl

/-- Witness for C2 at concrete records. -/
theorem user_bounds_witness :
    validate User [("name", Value.str "Alice Smith")] = none ∧
    validate User [("age", Value.num 121)] = none :=
  ⟨user_email_required_and_age_bounds.1 _ rfl,
   user_email_required_and_age_bounds.2.1 _ rfl⟩

/-- C3: validating a Book rejects any record with pages = 0, accepts
pages = 1, and a record omitting genres validates with genres equal to the
empty list. -/
theorem book_pages_bound_and_genres_default :
    (∀ rec : Record, lookupField rec "pages" = some (.num 0) → validate Book rec = none) ∧
    (validate Book [("title", .str "T"), ("author", .str "A"),
        ("pages", .num 1)]).isSome = true ∧
    (∀ rec out : Record, lookupField rec "genres" = none →
        validate Book rec = some out → lookupField out "genres" = some (.list [])) ∧
    validate Book [("title", .str "The Title"), ("author", .str "The Author")] =
      some [("title", .str "The Title"), ("subtitle", .null), ("description", .null),
        ("author", .str "The Author"), ("genres", .list []), ("cover_url", .null),
        ("pages", .null), ("price", .null), ("isbn", .null), ("featured", .bool false)] := by
  refine ⟨?_, rfl, ?_, rfl⟩
  · intro rec hlook
    exact validateFields_none_of_invalid Book.fields rec
      { name := "pages", ftype := .intT, required := false, default := some .null,
        nullable := true, ge := some 1, description := "Number of pages" }
      (by simp [Book]) (.num 0) hlook rfl
  · intro rec out hmiss hval
    exact validateFields_default_of_missing Book.fields rec
      { name := "genres", ftype := .listStrT, required := false, default := some (.list []),
        nullable := false, description := "List of genres/tags" }
      (by simp [Book]) (by decide) hmiss (.list []) rfl out hval

/-- Witness for C3 at concrete records. -/
theorem book_bounds_witness :
    validate Book [("pages", Value.num 0)] = none ∧
    lookupField [("title", Value.str "The Title"), ("subtitle", Value.null),
      ("description", Value.null), ("author", Value.str "The Author"),
      ("genres", Value.list []), ("cover_url", Value.null), ("pages", Value.null),
      ("price", Value.null), ("isbn", Value.null), ("featured", Value.bool false)]
      "genres" = some (Value.list []) :=
  ⟨book_pages_bound_and_genres_default.1 _ rfl,
   book_pages_bound_and_genres_default.2.2.1
     [("title", Value.str "The Title"), ("author", Value.str "The Author")] _ rfl rfl⟩

/-- C4: validating a Product rejects any record with price = -1 and accepts
price = 0 when title and category are valid. -/
theorem product_price_nonnegative :
    (∀ rec : Record, lookupField rec "price" = some (.num (-1)) →
        validate Product rec = none) ∧
    (validate Product [("title", .str "Widget"), ("price", .num 0),
        ("category", .str "tools")]).isSome = true := by
  refine ⟨?_, rfl⟩
  intro rec hlook
  exact validateFields_none_of_invalid Product.fields rec
    { name := "price", ftype := .floatT, required := true, default := none,
      nullable := false, ge := some 0, description := "Price in dollars" }
    (by simp [Product]) (.num (-1)) hlook rfl

/-- Witness for C4 at a concrete record. -/
theorem product_price_witness :
    validate Product [("price", Value.num (-1))] = none :=
  product_price_nonnegative.1 _ rfl

/-- C5: for every declared model, the collection name is the lowercased model
identifier; no declared model carries the documented blog-post exception. -/
theorem collection_names_are_lowercase :
    registry.map ModelSchema.name = ["User", "Product", "Author", "Book", "Submission"] ∧
    registry.map collection_name = ["user", "product", "author", "book", "submission"] ∧
    registry.countP (fun m => m.name == "BlogPost") = 0 ∧
    registry.countP (fun m => collection_name m == "blogs") = 0 := by
  refine ⟨rfl, by decide, rfl, by decide⟩

/-- C6: the required fields of the five models are exactly as listed, each
declares no default, and omitting any of them from a candidate record makes
validation fail. -/
theorem required_fields_no_default_and_reject_missing :
    registry.map (fun m => (m.fields.filter (fun f => f.required)).map FieldSpec.name) =
      [["name", "email"], ["title", "price", "category"], ["name"],
       ["title", "author"], ["author_name", "email", "book_title", "synopsis"]] ∧
    registry.all (fun m => m.fields.all (fun f => !f.required || f.default.isNone)) = true ∧
    (∀ m ∈ registry, ∀ k : String,
        (fieldOf m k).map FieldSpec.required = some true →
        ∀ rec : Record, lookupField rec k = none → validate m rec = none) := by
  refine ⟨rfl, rfl, ?_⟩
  intro m _ k hreq rec hmiss
  rcases Option.map_eq_some'.mp hreq with ⟨f, hfind, hfreq⟩
  have hmem : f ∈ m.fields := List.mem_of_find?_eq_some hfind
  have hk : f.name = k := by simpa using List.find?_some hfind
  exact validateFields_none_of_missing m.fields rec f hmem hfreq (hk ▸ hmiss)

/-- Witness for C6: a User record missing its required email is rejected. -/
theorem required_missing_witness :
    validate User [("name", Value.str "N")] = none :=
  required_fields_no_default_and_reject_missing.2.2 User (by simp [registry]) "email"
    rfl _ rfl

/-- C7: each optional field with a declared default (User.is_active true,
Product.in_stock true, Book.featured false, Book.genres empty list) is
substituted by exactly that default when omitted from a candidate record. -/
theorem optional_defaults_substituted :
    (fieldOf User "is_active").map FieldSpec.default = some (some (.bool true)) ∧
    (fieldOf Product "in_stock").map FieldSpec.default = some (some (.bool true)) ∧
    (fieldOf Book "featured").map FieldSpec.default = some (some (.bool false)) ∧
    (fieldOf Book "genres").map FieldSpec.default = some (some (.list [])) ∧
    (∀ m ∈ registry, ∀ (k : String) (d : Value),
        (fieldOf m k).map FieldSpec.default = some (some d) →
        (m.fields.map FieldSpec.name).Nodup →
        ∀ rec out : Record, lookupField rec k = none →
        validate m rec = some out → lookupField out k = some d) := by
  refine ⟨rfl, rfl, rfl, rfl, ?_⟩
  intro m _ k d hdef hnodup rec out hmiss hval
  rcases Option.map_eq_some'.mp hdef with ⟨f, hfind, hfd⟩
  have hmem : f ∈ m.fields := List.mem_of_find?_eq_some hfind
  have hk : f.name = k := by simpa using List.find?_some hfind
  have := validateFields_default_of_missing m.fields rec f hmem hnodup
    (hk ▸ hmiss) d hfd out hval
  exact hk ▸ this

/-- Witness for C7: omitting is_active from a valid User record yields a
validated record holding the default true. -/
theorem defaults_witness :
    lookupField [("name", Value.str "A"), ("email", Value.str "a@b.com"),
      ("address", Value.null), ("age", Value.null), ("is_active", Value.bool true)]
      "is_active" = some (Value.bool true) :=
  optional_defaults_substituted.2.2.2.2 User (by simp [registry]) "is_active"
    (Value.bool true) rfl (by decide)
    [("name", Value.str "A"), ("email", Value.str "a@b.com")] _ rfl rfl

/-- C8: enumerating the registry takes no input, never fails, is
side-effect-free, and yields the same ordered list of the five static model
declarations on every call. -/
theorem enumerate_idempotent :
    enumerate () = enumerate () ∧
    enumerate () = [User, Product, Author, Book, Submission] ∧
    (enumerate ()).map ModelSchema.name =
      ["User", "Product", "Author", "Book", "Submission"] :=
  ⟨rfl, rfl, rfl⟩

/-- C9: for every model, fields of a candidate record that are not declared
in the schema are never inspected: appending any undeclared fields leaves the
validation result unchanged, and a record with all required fields plus an
unknown field is accepted. -/
theorem unknown_fields_ignored :
    (∀ m ∈ registry, ∀ rec extras : Record,
        (∀ p ∈ extras, p.1 ∉ m.fields.map FieldSpec.name) →
        validate m (rec ++ extras) = validate m rec) ∧
    (validate User [("name", .str "U"), ("email", .str "u@e.com"),
        ("unknown_key", .num 7)]).isSome = true ∧
    (validate Product [("title", .str "W"), ("price", .num 5), ("category", .str "c"),
        ("unknown_key", .num 7)]).isSome = true ∧
    (validate Author [("name", .str "A"), ("unknown_key", .num 7)]).isSome = true ∧
    (validate Book [("title", .str "T"), ("author", .str "A"),
        ("unknown_key", .num 7)]).isSome = true ∧
    (validate Submission (subRecord ++ [("unknown_key", .num 7)])).isSome = true := by
  refine ⟨?_, rfl, rfl, rfl, rfl, rfl⟩
  intro m _ rec extras hex
  apply validateFields_congr
  intro f hf
  rw [lookupField_append]
  cases hrec : lookupField rec f.name with
  | some v => rfl
  | none =>
    refine lookupField_eq_none extras f.name ?_
    intro p hp heq
    exact hex p hp (heq ▸ List.mem_map_of_mem FieldSpec.name hf)

/-- Witness for C9: an undeclared key appended to a User record leaves the
validation result unchanged. -/
theorem unknown_fields_witness :
    validate User ([("name", Value.str "U"), ("email", Value.str "u@e.com")] ++
        [("unknown_key", Value.num 7)]) =
      validate User [("name", Value.str "U"), ("email", Value.str "u@e.com")] :=
  unknown_fields_ignored.1 User (by simp [registry]) _ _ (by decide)

/-- C10: a null value conforms exactly to the nullable (Optional) fields and
the range check is never consulted for null; the four range-bounded optional
fields are nullable, and supplying them as null is accepted. -/
theorem null_skips_range_checks :
    (∀ f : FieldSpec, checkValue f Value.null = f.nullable) ∧
    (fieldOf User "age").map FieldSpec.nullable = some true ∧
    (fieldOf Book "pages").map FieldSpec.nullable = some true ∧
    (fieldOf Book "price").map FieldSpec.nullable = some true ∧
    (fieldOf Submission "word_count").map FieldSpec.nullable = some true ∧
    (validate User [("name", .str "N"), ("email", .str "n@e.com"),
        ("age", .null)]).isSome = true ∧
    (validate Book [("title", .str "T"), ("author", .str "A"), ("pages", .null),
        ("price", .null)]).isSome = true ∧
    (validate Submission (subRecord ++ [("word_count", .null)])).isSome = true :=
  ⟨fun _ => rfl, rfl, rfl, rfl, rfl, rfl, rfl, rfl⟩

/-- Witness for C10: the null check on the age field ignores its bounds. -/
theorem null_skips_range_checks_witness :
    checkValue
      { name := "age", ftype := .intT, required := false, default := some Value.null,
        nullable := true, ge := some 0, le := some 120, description := "Age in years" }
      Value.null = true :=
  null_skips_range_checks.1
    { name := "age", ftype := .intT, required := false, default := some Value.null,
      nullable := true, ge := some 0, le := some 120, description := "Age in years" }

end Schemas
